import Mathlib

/-
Verification of the PlutoxAI conversation-orchestration engine
(src/api/bot.js): the per-turn handler for inbound text messages, its
persistence ordering, intent classification, context assembly, and the
failure-normalising backend wrappers.

The store (Supabase) is modelled as an in-memory pair of append-only row
lists; the `id` column used for ordering in `getConversationMemory`
corresponds to list position (rows are appended in insertion order).
Supabase client calls never throw in JS (they return `{ data, error }`),
so store failures are modelled as boolean flags that make the read return
null (empty history) or the insert a no-op.  The two axios backend calls
are modelled by an oracle value (`AxiosResult`) describing the HTTP
outcome the backend produced for this turn; `?.` chains on the response
are modelled with nested `Option`s and JS `||` falsiness on strings
(empty string falls through) is modelled explicitly.
-/

namespace Plutox

/-- JS `String.prototype.toLowerCase`, modelled per character. -/
def jsToLower (s : String) : String := String.mk (s.data.map Char.toLower)

/-- Helper for `jsIncludes`: does the second list start with the first? -/
def startsWithList : List Char → List Char → Bool
  | [], _ => true
  | _ :: _, [] => false
  | a :: as, b :: bs => a == b && startsWithList as bs

/-- Helper for `jsIncludes`: does `pat` occur as a contiguous sublist? -/
def hasSubList (pat : List Char) : List Char → Bool
  | [] => startsWithList pat []
  | c :: rest => startsWithList pat (c :: rest) || hasSubList pat rest

/-- JS `s.includes(pat)`: contiguous-substring containment. -/
def jsIncludes (s pat : String) : Bool := hasSubList pat.data s.data

/-- A row of the `users` table (src/api/bot.js lines 50-54). -/
structure UserRow where
  id : Nat
  username : Option String
  first_name : Option String
deriving Repr, DecidableEq

/-- A row of the `messages` table (src/api/bot.js line 35). -/
structure Msg where
  user_id : Nat
  role : String
  content : String
deriving Repr, DecidableEq

/-- The persistent store: both tables, rows in insertion order. -/
structure Store where
  users : List UserRow
  messages : List Msg
deriving Repr, DecidableEq

/-- A role/content pair as selected by `getConversationMemory` and as sent
to the chat backend. -/
structure RoleContent where
  role : String
  content : String
deriving Repr, DecidableEq

/-- Projection of a stored message row onto the selected columns. -/
def Msg.toRC (m : Msg) : RoleContent := { role := m.role, content := m.content }

/-- getConversationMemory (src/api/bot.js lines 20-29): select role,content
where user_id = uid, order by id descending, limit 5, then `.reverse()`;
a failed read yields null data, hence `|| []`. -/
def getConversationMemory (readFails : Bool) (user_id : Nat) (st : Store) :
    List RoleContent :=
  if readFails then []
  else
    (((st.messages.filter (fun m => m.user_id == user_id)).reverse.take 5).reverse).map
      Msg.toRC

/-- saveMessage (src/api/bot.js lines 34-36): insert one row; a failed
insert is reported in the ignored `error` field, so it is a no-op here. -/
def saveMessage (writeFails : Bool) (user_id : Nat) (role content : String)
    (st : Store) : Store :=
  if writeFails then st
  else { st with messages := st.messages ++ [⟨user_id, role, content⟩] }

/-- registerUser (src/api/bot.js lines 41-56): look the id up; on no data
(absent row, or a failed lookup) insert the row.  A failed insert is again
a silent no-op. -/
def registerUser (lookupFails insertFails : Bool) (uid : Nat)
    (username first_name : Option String) (st : Store) : Store :=
  let found := if lookupFails then none else st.users.find? (fun u => u.id == uid)
  match found with
  | some _ => st
  | none =>
    if insertFails then st
    else { st with users := st.users ++ [⟨uid, username, first_name⟩] }

/-- Payload `message` object of one chat completion choice. -/
structure ChatMessagePayload where
  content : Option String
deriving Repr, DecidableEq

/-- One element of the chat response `choices` array. -/
structure ChatChoice where
  message : Option ChatMessagePayload
deriving Repr, DecidableEq

/-- Chat backend response body (`response.data`). -/
structure ChatData where
  choices : Option (List ChatChoice)
deriving Repr, DecidableEq

/-- One element of the image response `data` array. -/
structure ImageItem where
  url : Option String
deriving Repr, DecidableEq

/-- Image backend response body (`response.data`). -/
structure ImageData where
  data : Option (List ImageItem)
deriving Repr, DecidableEq

/-- Outcome of an axios POST: success with a (possibly absent) body, or a
thrown transport/HTTP error. -/
inductive AxiosResult (α : Type) where
  | ok (data : Option α)
  | error
deriving Repr

/-- JS `v || d` where `v` is the optional string result of a `?.` chain:
falls back on null/undefined and on the empty string. -/
def jsOrString (v : Option String) (d : String) : String :=
  match v with
  | some s => if s == "" then d else s
  | none => d

/-- JS `v || null` on an optional string: empty string becomes null. -/
def jsOrNull (v : Option String) : Option String :=
  match v with
  | some s => if s == "" then none else some s
  | none => none

/-- The `response.data?.choices?.[0]?.message?.content` chain. -/
def extractChatContent : Option ChatData → Option String
  | none => none
  | some d =>
    match d.choices with
    | none => none
    | some choices =>
      match choices.head? with
      | none => none
      | some choice =>
        match choice.message with
        | none => none
        | some msg => msg.content

/-- The `response.data?.data?.[0]?.url` chain. -/
def extractImageUrl : Option ImageData → Option String
  | none => none
  | some d =>
    match d.data with
    | none => none
    | some items =>
      match items.head? with
      | none => none
      | some item => item.url

/-- System instruction prepended to every chat request (line 67). -/
def systemInstruction : String := "You are PlutoxAI, a helpful friendly assistant."

/-- Warning returned on an empty or malformed chat response (line 83). -/
def noResponseWarning : String := "⚠️ AI returned no response."

/-- Fallback returned when the chat backend call throws (line 86). -/
def aiIssueFallback : String := "⚠️ AI encountered an issue. Please try again."

/-- Canned creator-attribution reply (line 165). -/
def creatorReply : String := "🤖 I was created by *PlutoxofWeb3*.\n\nConnect with the creator:\n• X: @Plutoxofweb3\n• Telegram: @PlutoxWeb3"

/-- Caption attached to a successfully generated image (line 179). -/
def imageCaption : String := "🖼 Here’s your AI-generated image!"

/-- User-visible message on image-generation failure (line 182). -/
def imageFailReply : String := "⚠️ Failed to generate the image. Try again later."

/-- Failure marker persisted as the bot row on image failure (line 183). -/
def imageFailMarker : String := "⚠️ Failed to generate image"

/-- The `messages` array built in generateAIResponse (lines 66-70):
system instruction, then the mapped memory rows, then the current turn. -/
def assembleMessages (memory : List RoleContent) (text : String) : List RoleContent :=
  { role := "system", content := systemInstruction }
    :: memory.map (fun m => { role := m.role, content := m.content })
    ++ [{ role := "user", content := text }]

/-- generateAIResponse (src/api/bot.js lines 63-88): read memory, assemble
the request messages, POST, and extract the first completion content with
fallbacks; a thrown error yields the fixed fallback string.  The second
component records the request payload that was sent to the backend. -/
def generateAIResponse (memoryReadFails : Bool) (outcome : AxiosResult ChatData)
    (user_id : Nat) (text : String) (st : Store) : String × List RoleContent :=
  let memory := getConversationMemory memoryReadFails user_id st
  let messages := assembleMessages memory text
  match outcome with
  | .error => (aiIssueFallback, messages)
  | .ok data => (jsOrString (extractChatContent data) noResponseWarning, messages)

/-- generateAIImage (src/api/bot.js lines 95-112): POST the raw prompt and
extract the first image URL; any thrown error yields null. -/
def generateAIImage (outcome : AxiosResult ImageData) (prompt : String) :
    Option String :=
  match outcome with
  | .error => none
  | .ok data => jsOrNull (extractImageUrl data)

/-- Intent values of the classifier component. -/
inductive Intent where
  | image_request
  | text_request
deriving Repr, DecidableEq

/-- The fixed keyword set (src/api/bot.js line 172). -/
def imageKeywords : List String := ["image", "photo", "picture", "show me", "draw", "generate"]

/-- Image detection (line 173): some keyword occurs in the lowered text. -/
def wantsImage (lowerText : String) : Bool :=
  imageKeywords.any (fun word => jsIncludes lowerText word)

/-- The intent classifier as a function of the raw message text. -/
def classifyIntent (text : String) : Intent :=
  if wantsImage (jsToLower text) then Intent.image_request else Intent.text_request

/-- Creator-keyword check (line 164) on the lowered text. -/
def creatorCheck (lowerText : String) : Bool :=
  jsIncludes lowerText "who created you" || jsIncludes lowerText "creator" ||
    jsIncludes lowerText "who made you"

/-- A reply handed to the transport for delivery. -/
inductive Reply where
  | text (s : String)
  | photo (url caption : String)
deriving Repr, DecidableEq

/-- Observable actions of one turn, in program order. -/
inductive Event where
  | msgInsert (user_id : Nat) (role content : String)
  | chatAction
  | textBackendCall (messages : List RoleContent)
  | imageBackendCall (prompt : String)
  | delivered (r : Reply)
deriving Repr, DecidableEq

/-- Which branch of the handler a turn took. -/
inductive Path where
  | creator
  | image
  | text
deriving Repr, DecidableEq

/-- Behaviour of the collaborators (store and backends) during one turn. -/
structure Collab where
  lookupFails : Bool
  userInsertFails : Bool
  userMsgInsertFails : Bool
  botMsgInsertFails : Bool
  memoryReadFails : Bool
  chatOutcome : AxiosResult ChatData
  imageOutcome : AxiosResult ImageData
deriving Repr

/-- Result of one turn: final store, event trace, delivered reply, path. -/
structure TurnResult where
  store : Store
  trace : List Event
  reply : Reply
  path : Path
deriving Repr

/-- The bot.on("text") handler (src/api/bot.js lines 153-192), with the
collaborator behaviour passed in as an oracle.  Program order: lower the
text, registerUser, save the user row, send the typing action, creator
check, image detection, then one of the three branches. -/
def handleText (c : Collab) (user_id : Nat) (username first_name : Option String)
    (text : String) (st : Store) : TurnResult :=
  let lowerText := jsToLower text
  let st1 := registerUser c.lookupFails c.userInsertFails user_id username first_name st
  let st2 := saveMessage c.userMsgInsertFails user_id "user" text st1
  let ev0 : List Event := [Event.msgInsert user_id "user" text, Event.chatAction]
  if creatorCheck lowerText then
    let st3 := saveMessage c.botMsgInsertFails user_id "bot" creatorReply st2
    { store := st3
      trace := ev0 ++ [Event.delivered (Reply.text creatorReply),
                       Event.msgInsert user_id "bot" creatorReply]
      reply := Reply.text creatorReply
      path := Path.creator }
  else if wantsImage lowerText then
    match generateAIImage c.imageOutcome text with
    | some imageUrl =>
      let st3 := saveMessage c.botMsgInsertFails user_id "bot" imageUrl st2
      { store := st3
        trace := ev0 ++ [Event.imageBackendCall text,
                         Event.delivered (Reply.photo imageUrl imageCaption),
                         Event.msgInsert user_id "bot" imageUrl]
        reply := Reply.photo imageUrl imageCaption
        path := Path.image }
    | none =>
      let st3 := saveMessage c.botMsgInsertFails user_id "bot" imageFailMarker st2
      { store := st3
        trace := ev0 ++ [Event.imageBackendCall text,
                         Event.delivered (Reply.text imageFailReply),
                         Event.msgInsert user_id "bot" imageFailMarker]
        reply := Reply.text imageFailReply
        path := Path.image }
  else
    let out := generateAIResponse c.memoryReadFails c.chatOutcome user_id text st2
    let st3 := saveMessage c.botMsgInsertFails user_id "bot" out.1 st2
    { store := st3
      trace := ev0 ++ [Event.textBackendCall out.2,
                       Event.msgInsert user_id "bot" out.1,
                       Event.delivered (Reply.text out.1)]
      reply := Reply.text out.1
      path := Path.text }

/-- Is an event a call to one of the generation backends? -/
def isBackendCall : Event → Bool
  | .textBackendCall _ => true
  | .imageBackendCall _ => true
  | _ => false

/-- Scans a trace: true iff no backend call occurs before the first
insertion of a user-role message row. -/
def userLoggedBeforeBackend : List Event → Bool
  | [] => true
  | .textBackendCall _ :: _ => false
  | .imageBackendCall _ :: _ => false
  | .msgInsert _ role _ :: rest =>
    if role == "user" then true else userLoggedBeforeBackend rest
  | _ :: rest => userLoggedBeforeBackend rest

/-- The request payload of the first text-backend call in a trace. -/
def sentContext : List Event → Option (List RoleContent)
  | [] => none
  | .textBackendCall messages :: _ => some messages
  | _ :: rest => sentContext rest

/-- The history portion of an assembled context: everything strictly
between the leading system instruction and the trailing current turn. -/
def historyOf (ctx : List RoleContent) : List RoleContent :=
  (ctx.drop 1).dropLast

/-- The path a message text leads to, as a pure function of the text. -/
def pathOfText (text : String) : Path :=
  if creatorCheck (jsToLower text) then Path.creator
  else if wantsImage (jsToLower text) then Path.image
  else Path.text

/-- The context sent to the text backend during a turn (empty if none). -/
def contextSent (r : TurnResult) : List RoleContent :=
  (sentContext r.trace).getD []

/-- The empty store. -/
def emptyStore : Store := ⟨[], []⟩

/-- A fully reliable collaborator whose backends both fail at HTTP level. -/
def reliableStoreCollab : Collab :=
  ⟨false, false, false, false, false, AxiosResult.error, AxiosResult.error⟩

/-- Six prior message rows for user 1 (used on concrete inputs). -/
def sixRowStore : Store :=
  ⟨[], [⟨1, "user", "m1"⟩, ⟨1, "bot", "m2"⟩, ⟨1, "user", "m3"⟩,
        ⟨1, "bot", "m4"⟩, ⟨1, "user", "m5"⟩, ⟨1, "bot", "m6"⟩]⟩

/-! Helper lemmas shared by the claim theorems. -/

theorem registerUser_messages (lf insf : Bool) (uid : Nat)
    (un fn : Option String) (st : Store) :
    (registerUser lf insf uid un fn st).messages = st.messages := by
  unfold registerUser
  dsimp only
  split
  · rfl
  · split <;> rfl

theorem generateAIResponse_snd (rf : Bool) (oc : AxiosResult ChatData)
    (uid : Nat) (text : String) (st : Store) :
    (generateAIResponse rf oc uid text st).2 =
      assembleMessages (getConversationMemory rf uid st) text := by
  unfold generateAIResponse
  cases oc <;> rfl

theorem map_rc_eta (l : List RoleContent) :
    l.map (fun m => ({ role := m.role, content := m.content } : RoleContent)) = l := by
  induction l with
  | nil => rfl
  | cons h t ih => rw [List.map_cons, ih]

theorem memory_after_save (uid : Nat) (text : String) (st : Store) :
    getConversationMemory false uid (saveMessage false uid "user" text st) =
      (((st.messages.filter (fun m => m.user_id == uid)).reverse.take 4).reverse.map Msg.toRC)
        ++ [{ role := "user", content := text }] := by
  unfold getConversationMemory saveMessage
  simp only [if_false, Bool.false_eq_true, reduceIte]
  rw [List.filter_append]
  simp only [List.filter_cons, List.filter_nil, beq_self_eq_true, if_true, reduceIte]
  rw [List.reverse_append]
  simp only [List.reverse_cons, List.reverse_nil, List.nil_append, List.singleton_append]
  rw [show (5 : Nat) = 4 + 1 from rfl, List.take_succ_cons, List.reverse_cons,
    List.map_append]
  rfl

theorem handleText_path (c : Collab) (uid : Nat) (un fn : Option String)
    (text : String) (st : Store) :
    (handleText c uid un fn text st).path = pathOfText text := by
  unfold handleText pathOfText
  by_cases h1 : creatorCheck (jsToLower text) = true
  · simp [h1]
  · by_cases h2 : wantsImage (jsToLower text) = true
    · simp only [h1, h2, Bool.false_eq_true, reduceIte, if_true]
      cases generateAIImage c.imageOutcome text <;> rfl
    · simp [h1, h2]

theorem handleText_sentContext (c : Collab) (uid : Nat) (un fn : Option String)
    (text : String) (st : Store)
    (hcr : creatorCheck (jsToLower text) = false)
    (him : wantsImage (jsToLower text) = false)
    (hu : c.userMsgInsertFails = false)
    (hr : c.memoryReadFails = false) :
    sentContext (handleText c uid un fn text st).trace =
      some ({ role := "system", content := systemInstruction } ::
        ((((st.messages.filter (fun m => m.user_id == uid)).reverse.take 4).reverse.map Msg.toRC)
          ++ [{ role := "user", content := text }]) ++ [{ role := "user", content := text }]) := by
  unfold handleText
  simp only [hcr, him, Bool.false_eq_true, reduceIte]
  simp only [sentContext, generateAIResponse_snd, hr, hu]
  rw [memory_after_save]
  unfold assembleMessages
  rw [map_rc_eta, registerUser_messages]

/-- C1: for every inbound text message, when the two message inserts of the
turn succeed, the turn appends to the store exactly one user-role row
(holding the inbound text) and exactly one bot-role row, on every path
(creator, image success/failure, text success/backend failure), and in the
event trace the user row is inserted before any backend call. -/
theorem C1_turn_persistence (c : Collab) (uid : Nat) (un fn : Option String)
    (text : String) (st : Store)
    (hu : c.userMsgInsertFails = false) (hb : c.botMsgInsertFails = false) :
    (∃ botContent,
      (handleText c uid un fn text st).store.messages =
        st.messages ++ [⟨uid, "user", text⟩, ⟨uid, "bot", botContent⟩]) ∧
    userLoggedBeforeBackend (handleText c uid un fn text st).trace = true := by
  unfold handleText
  by_cases h1 : creatorCheck (jsToLower text) = true
  · simp only [h1, reduceIte]
    refine ⟨⟨creatorReply, ?_⟩, rfl⟩
    simp [saveMessage, hu, hb, registerUser_messages]
  · by_cases h2 : wantsImage (jsToLower text) = true
    · simp only [h1, h2, Bool.false_eq_true, reduceIte]
      cases him : generateAIImage c.imageOutcome text with
      | some url =>
        refine ⟨⟨url, ?_⟩, rfl⟩
        simp [saveMessage, hu, hb, registerUser_messages]
      | none =>
        refine ⟨⟨imageFailMarker, ?_⟩, rfl⟩
        simp [saveMessage, hu, hb, registerUser_messages]
    · simp only [h1, h2, Bool.false_eq_true, reduceIte]
      refine ⟨⟨(generateAIResponse c.memoryReadFails c.chatOutcome uid text
        (saveMessage c.userMsgInsertFails uid "user" text
          (registerUser c.lookupFails c.userInsertFails uid un fn st))).1, ?_⟩, rfl⟩
      simp [saveMessage, hu, hb, registerUser_messages]

/-- Witness for C1 at a concrete input: user 1, text "hello", empty store,
reliable store, text backend failing. -/
theorem C1_turn_persistence_witness :
    (∃ botContent,
      (handleText reliableStoreCollab 1 none none "hello" emptyStore).store.messages =
        emptyStore.messages ++ [⟨1, "user", "hello"⟩, ⟨1, "bot", botContent⟩]) ∧
    userLoggedBeforeBackend
      (handleText reliableStoreCollab 1 none none "hello" emptyStore).trace = true :=
  C1_turn_persistence reliableStoreCollab 1 none none "hello" emptyStore rfl rfl

/-- C2: intent classification is a total, case-insensitive function of the
message text: image request iff the lowered text contains one of the six
keywords; two texts with the same lowering classify identically; the empty
string is a text request. -/
theorem C2_intent_total_case_insensitive (s t : String) :
    (classifyIntent s = Intent.image_request ↔
      ∃ w ∈ imageKeywords, jsIncludes (jsToLower s) w = true) ∧
    (jsToLower s = jsToLower t → classifyIntent s = classifyIntent t) ∧
    classifyIntent "" = Intent.text_request := by
  refine ⟨?_, ?_, by decide⟩
  · unfold classifyIntent wantsImage
    cases hw : imageKeywords.any (fun word => jsIncludes (jsToLower s) word) with
    | false =>
      simp only [Bool.false_eq_true, reduceIte]
      constructor
      · intro h; exact absurd h (by simp)
      · rintro ⟨w, hmem, hinc⟩
        have : imageKeywords.any (fun word => jsIncludes (jsToLower s) word) = true :=
          List.any_eq_true.mpr ⟨w, hmem, hinc⟩
        rw [hw] at this
        exact absurd this (by simp)
    | true =>
      constructor
      · intro _
        exact List.any_eq_true.mp hw
      · intro _
        simp only [hw, reduceIte]
  · intro h
    unfold classifyIntent
    rw [h]

/-- Witness for C2: a capitalised image request lowers to the same text as
its lowercase form and the two classify identically; the empty string is a
text request. -/
theorem C2_intent_total_case_insensitive_witness :
    classifyIntent "Draw me a cat" = classifyIntent "draw me a cat" ∧
    classifyIntent "" = Intent.text_request :=
  ⟨(C2_intent_total_case_insensitive "Draw me a cat" "draw me a cat").2.1 (by decide),
   (C2_intent_total_case_insensitive "x" "x").2.2⟩

/-- C3: the creator-keyword check has priority over intent classification:
whenever the lowered text contains a creator keyword, the turn replies with
the canned creator attribution, takes the creator path, makes no backend
call, and (when the bot insert succeeds) persists the creator reply as the
last (bot) row — even when the text also contains image keywords. -/
theorem C3_creator_priority (c : Collab) (uid : Nat) (un fn : Option String)
    (text : String) (st : Store)
    (hb : c.botMsgInsertFails = false)
    (hcr : creatorCheck (jsToLower text) = true) :
    (handleText c uid un fn text st).reply = Reply.text creatorReply ∧
    (handleText c uid un fn text st).path = Path.creator ∧
    (handleText c uid un fn text st).trace.filter isBackendCall = [] ∧
    (handleText c uid un fn text st).store.messages.getLast? =
      some ⟨uid, "bot", creatorReply⟩ := by
  unfold handleText
  simp only [hcr, reduceIte]
  refine ⟨by trivial, by trivial, by trivial, ?_⟩
  simp [saveMessage, hb, List.getLast?_concat]

/-- Witness for C3 at the spec's own example "please draw who created you",
which contains the image keyword "draw" but still takes the creator path. -/
theorem C3_creator_priority_witness :
    creatorCheck (jsToLower "please draw who created you") = true ∧
    wantsImage (jsToLower "please draw who created you") = true ∧
    (handleText reliableStoreCollab 7 none none "please draw who created you"
        emptyStore).reply = Reply.text creatorReply ∧
    (handleText reliableStoreCollab 7 none none "please draw who created you"
        emptyStore).path = Path.creator :=
  ⟨by decide, by decide,
   (C3_creator_priority reliableStoreCollab 7 none none _ emptyStore rfl (by decide)).1,
   (C3_creator_priority reliableStoreCollab 7 none none _ emptyStore rfl (by decide)).2.1⟩

/-- C9: no collaborator failure below the orchestrator aborts a turn: for
every collaborator behaviour (including a failing registration lookup or
insert, failing message writes, a failing memory read and erroring
backends) the handler terminates and its trace contains the delivery of
its reply. -/
theorem C9_always_delivers (c : Collab) (uid : Nat) (un fn : Option String)
    (text : String) (st : Store) :
    Event.delivered (handleText c uid un fn text st).reply ∈
      (handleText c uid un fn text st).trace := by
  unfold handleText
  by_cases h1 : creatorCheck (jsToLower text) = true
  · simp [h1]
  · by_cases h2 : wantsImage (jsToLower text) = true
    · simp only [h1, h2, Bool.false_eq_true, reduceIte]
      cases generateAIImage c.imageOutcome text <;> simp
    · simp [h1, h2]

/-- C10: path selection depends only on the message text: two turns with
identical text take the same path, whatever the sender identity, the
stored history or the collaborator behaviour. -/
theorem C10_path_only_depends_on_text (c₁ c₂ : Collab) (uid₁ uid₂ : Nat)
    (un₁ fn₁ un₂ fn₂ : Option String) (st₁ st₂ : Store) (text : String) :
    (handleText c₁ uid₁ un₁ fn₁ text st₁).path =
      (handleText c₂ uid₂ un₂ fn₂ text st₂).path := by
  rw [handleText_path, handleText_path]

/-- C6: neither backend wrapper raises: generateAIResponse yields the first
completion content on success, the fixed warning on an empty or malformed
response, and the fixed fallback on a thrown transport/backend error;
generateAIImage yields the image URL on success and null (`none`) on any
error, malformed or empty response. -/
theorem C6_backend_never_raises (st : Store) (rf : Bool) (uid : Nat)
    (text prompt : String) :
    ((generateAIResponse rf AxiosResult.error uid text st).1 = aiIssueFallback) ∧
    (∀ d content, extractChatContent d = some content → content ≠ "" →
      (generateAIResponse rf (AxiosResult.ok d) uid text st).1 = content) ∧
    (∀ d, (extractChatContent d = none ∨ extractChatContent d = some "") →
      (generateAIResponse rf (AxiosResult.ok d) uid text st).1 = noResponseWarning) ∧
    (generateAIImage AxiosResult.error prompt = none) ∧
    (∀ d url, extractImageUrl d = some url → url ≠ "" →
      generateAIImage (AxiosResult.ok d) prompt = some url) ∧
    (∀ d, (extractImageUrl d = none ∨ extractImageUrl d = some "") →
      generateAIImage (AxiosResult.ok d) prompt = none) := by
  refine ⟨rfl, ?_, ?_, rfl, ?_, ?_⟩
  · intro d content h hne
    show jsOrString (extractChatContent d) noResponseWarning = content
    rw [h]
    simp [jsOrString, hne]
  · intro d h
    show jsOrString (extractChatContent d) noResponseWarning = noResponseWarning
    rcases h with h | h <;> rw [h] <;> simp [jsOrString]
  · intro d url h hne
    show jsOrNull (extractImageUrl d) = some url
    rw [h]
    simp [jsOrNull, hne]
  · intro d h
    show jsOrNull (extractImageUrl d) = none
    rcases h with h | h <;> rw [h] <;> simp [jsOrNull]

/-- Witness for C6: a well-formed chat response yields its content, and an
erroring image backend yields none. -/
theorem C6_backend_never_raises_witness :
    (generateAIResponse false
        (AxiosResult.ok (some ⟨some [⟨some ⟨some "Hi there!"⟩⟩]⟩)) 42 "hello"
        emptyStore).1 = "Hi there!" ∧
    generateAIImage AxiosResult.error "draw a cat" = none :=
  ⟨(C6_backend_never_raises emptyStore false 42 "hello" "draw a cat").2.1
      (some ⟨some [⟨some ⟨some "Hi there!"⟩⟩]⟩) "Hi there!" rfl (by decide),
   (C6_backend_never_raises emptyStore false 42 "hello" "draw a cat").2.2.2.1⟩

/-- C7: on the image path (no creator keyword, an image keyword present),
when generateAIImage yields a URL the reply is that URL with the fixed
caption and the persisted bot row holds the URL; when it yields none the
reply is the fixed failure message and the persisted bot row holds the
explicit failure marker. -/
theorem C7_image_path (c : Collab) (uid : Nat) (un fn : Option String)
    (text : String) (st : Store)
    (hb : c.botMsgInsertFails = false)
    (hcr : creatorCheck (jsToLower text) = false)
    (him : wantsImage (jsToLower text) = true) :
    (∀ url, generateAIImage c.imageOutcome text = some url →
      (handleText c uid un fn text st).reply = Reply.photo url imageCaption ∧
      (handleText c uid un fn text st).store.messages.getLast? =
        some ⟨uid, "bot", url⟩) ∧
    (generateAIImage c.imageOutcome text = none →
      (handleText c uid un fn text st).reply = Reply.text imageFailReply ∧
      (handleText c uid un fn text st).store.messages.getLast? =
        some ⟨uid, "bot", imageFailMarker⟩) := by
  constructor
  · intro url hurl
    unfold handleText
    simp only [hcr, him, Bool.false_eq_true, reduceIte, hurl]
    exact ⟨by trivial, by simp [saveMessage, hb, List.getLast?_concat]⟩
  · intro hnone
    unfold handleText
    simp only [hcr, him, Bool.false_eq_true, reduceIte, hnone]
    exact ⟨by trivial, by simp [saveMessage, hb, List.getLast?_concat]⟩

/-- Witness for C7: "draw a cat" with an erroring image backend yields the
fixed failure reply and persists the failure marker. -/
theorem C7_image_path_witness :
    (handleText reliableStoreCollab 5 none none "draw a cat" emptyStore).reply =
      Reply.text imageFailReply ∧
    (handleText reliableStoreCollab 5 none none "draw a cat" emptyStore).store.messages.getLast? =
      some ⟨5, "bot", imageFailMarker⟩ :=
  (C7_image_path reliableStoreCollab 5 none none "draw a cat" emptyStore
    rfl (by decide) (by decide)).2 rfl

/-- C8: user registration is idempotent: with a working store, registering
twice equals registering once; starting from a store with at most one row
for the id, exactly one row for that id remains; and a registration for an
already-present id changes nothing. -/
theorem C8_registration_idempotent (uid : Nat) (un fn : Option String) (st : Store)
    (h : (st.users.filter (fun u => u.id == uid)).length ≤ 1) :
    registerUser false false uid un fn (registerUser false false uid un fn st) =
      registerUser false false uid un fn st ∧
    ((registerUser false false uid un fn
        (registerUser false false uid un fn st)).users.filter
          (fun u => u.id == uid)).length = 1 ∧
    (∀ u ∈ st.users, u.id = uid → registerUser false false uid un fn st = st) := by
  cases hf : st.users.find? (fun u => u.id == uid) with
  | some u =>
    have hst : registerUser false false uid un fn st = st := by
      unfold registerUser
      simp only [Bool.false_eq_true, reduceIte, hf]
    have hpu : (fun v : UserRow => v.id == uid) u = true :=
      @List.find?_some UserRow (fun v => v.id == uid) u st.users hf
    have hmem : u ∈ st.users.filter (fun v => v.id == uid) :=
      List.mem_filter.mpr ⟨List.mem_of_find?_eq_some hf, hpu⟩
    have hpos : 0 < (st.users.filter (fun v => v.id == uid)).length :=
      List.length_pos.mpr (List.ne_nil_of_mem hmem)
    refine ⟨by simp only [hst], ?_, fun _ _ _ => hst⟩
    simp only [hst]
    omega
  | none =>
    have hnil : st.users.filter (fun u => u.id == uid) = [] := by
      rw [List.filter_eq_nil_iff]
      intro a ha
      exact List.find?_eq_none.mp hf a ha
    have h1 : registerUser false false uid un fn st =
        { st with users := st.users ++ [⟨uid, un, fn⟩] } := by
      unfold registerUser
      simp only [Bool.false_eq_true, reduceIte, hf]
    have hfind2 : (st.users ++ [(⟨uid, un, fn⟩ : UserRow)]).find?
        (fun u => u.id == uid) = some ⟨uid, un, fn⟩ := by
      rw [List.find?_append, hf]
      simp
    have h2 : registerUser false false uid un fn
        { st with users := st.users ++ [(⟨uid, un, fn⟩ : UserRow)] } =
        { st with users := st.users ++ [(⟨uid, un, fn⟩ : UserRow)] } := by
      unfold registerUser
      simp only [Bool.false_eq_true, reduceIte, hfind2]
    refine ⟨by rw [h1, h2], ?_, ?_⟩
    · rw [h1, h2]
      simp only [List.filter_append, hnil, List.nil_append, List.filter_cons,
        beq_self_eq_true, reduceIte, List.filter_nil, List.length_cons,
        List.length_nil]
    · intro u hu hid
      have := List.find?_eq_none.mp hf u hu
      rw [hid] at this
      simp at this

/-- Witness for C8: registering user 42 twice on the empty store leaves
exactly one row with id 42. -/
theorem C8_registration_idempotent_witness :
    ((registerUser false false 42 none none
        (registerUser false false 42 none none emptyStore)).users.filter
          (fun u => u.id == 42)).length = 1 :=
  (C8_registration_idempotent 42 none none emptyStore (by decide)).2.1

/-- Counterexample to C4 as stated: user 1 has 6 (> 5) prior rows m1..m6;
the context for "hello" indeed has 7 entries, but its history portion is
[m3, m4, m5, m6, "hello"] — the current turn's row (persisted before
memory retrieval) plus only the 4 most recent prior rows — and not the 5
most-recently-inserted prior rows [m2..m6]. -/
theorem C4_context_window_counterexample :
    contextSent (handleText reliableStoreCollab 1 none none "hello" sixRowStore) =
      [⟨"system", systemInstruction⟩, ⟨"user", "m3"⟩, ⟨"bot", "m4"⟩,
       ⟨"user", "m5"⟩, ⟨"bot", "m6"⟩, ⟨"user", "hello"⟩, ⟨"user", "hello"⟩] ∧
    historyOf (contextSent (handleText reliableStoreCollab 1 none none "hello" sixRowStore)) ≠
      (((sixRowStore.messages.filter (fun m => m.user_id == 1)).reverse.take 5).reverse.map
        Msg.toRC) := by
  decide

/-- C4 (amended): for every user with more than 5 prior rows, the context
sent to the text backend has exactly 7 entries, and its history portion is
the 4 most-recently-inserted prior rows (oldest-first) followed by the
current turn's user row, which therefore appears twice in the context. -/
theorem C4_context_window_amended (c : Collab) (uid : Nat) (un fn : Option String)
    (text : String) (st : Store)
    (hcr : creatorCheck (jsToLower text) = false)
    (him : wantsImage (jsToLower text) = false)
    (hu : c.userMsgInsertFails = false)
    (hr : c.memoryReadFails = false)
    (hn : 5 < (st.messages.filter (fun m => m.user_id == uid)).length) :
    (contextSent (handleText c uid un fn text st)).length = 7 ∧
    historyOf (contextSent (handleText c uid un fn text st)) =
      (((st.messages.filter (fun m => m.user_id == uid)).reverse.take 4).reverse.map Msg.toRC)
        ++ [⟨"user", text⟩] := by
  have hctx := handleText_sentContext c uid un fn text st hcr him hu hr
  unfold contextSent
  rw [hctx]
  simp only [Option.getD_some]
  constructor
  · simp only [List.length_append, List.length_cons, List.length_map,
      List.length_reverse, List.length_take, List.length_nil, inf_eq_min]
    omega
  · unfold historyOf
    rw [List.cons_append, List.drop_one, List.tail_cons, List.dropLast_concat]

/-- Witness for the amended C4 at the concrete six-row store. -/
theorem C4_context_window_amended_witness :
    (contextSent (handleText reliableStoreCollab 1 none none "hello" sixRowStore)).length = 7 ∧
    historyOf (contextSent (handleText reliableStoreCollab 1 none none "hello" sixRowStore)) =
      (((sixRowStore.messages.filter (fun m => m.user_id == 1)).reverse.take 4).reverse.map
        Msg.toRC) ++ [⟨"user", "hello"⟩] :=
  C4_context_window_amended reliableStoreCollab 1 none none "hello" sixRowStore
    (by decide) (by decide) rfl rfl (by decide)

/-- Counterexample to C5 as stated: a user with 0 (≤ 5) prior rows gets a
context of 3 entries for "hello" — system, the just-persisted current row
retrieved as history, and the current message — not 0 + 2 = 2 entries. -/
theorem C5_context_length_counterexample :
    contextSent (handleText reliableStoreCollab 1 none none "hello" emptyStore) =
      [⟨"system", systemInstruction⟩, ⟨"user", "hello"⟩, ⟨"user", "hello"⟩] ∧
    (contextSent (handleText reliableStoreCollab 1 none none "hello" emptyStore)).length ≠
      (emptyStore.messages.filter (fun m => m.user_id == 1)).length + 2 := by
  decide

/-- C5 (amended): for every user with count ≤ 5 prior rows, the context is
the system instruction, then the up-to-4 most recent prior rows followed by
the current turn's user row (oldest-first), then the current message last —
min(count,4) + 3 entries in total, the current message appearing twice. -/
theorem C5_context_shape_amended (c : Collab) (uid : Nat) (un fn : Option String)
    (text : String) (st : Store)
    (hcr : creatorCheck (jsToLower text) = false)
    (him : wantsImage (jsToLower text) = false)
    (hu : c.userMsgInsertFails = false)
    (hr : c.memoryReadFails = false)
    (hn : (st.messages.filter (fun m => m.user_id == uid)).length ≤ 5) :
    contextSent (handleText c uid un fn text st) =
      { role := "system", content := systemInstruction } ::
        ((((st.messages.filter (fun m => m.user_id == uid)).reverse.take 4).reverse.map
          Msg.toRC) ++ [⟨"user", text⟩]) ++ [⟨"user", text⟩] ∧
    (contextSent (handleText c uid un fn text st)).length =
      min ((st.messages.filter (fun m => m.user_id == uid)).length) 4 + 3 := by
  have hctx := handleText_sentContext c uid un fn text st hcr him hu hr
  unfold contextSent
  rw [hctx]
  simp only [Option.getD_some]
  refine ⟨by trivial, ?_⟩
  simp only [List.length_append, List.length_cons, List.length_map,
    List.length_reverse, List.length_take, List.length_nil, inf_eq_min]
  omega

/-- Witness for the amended C5 at the empty store (count = 0). -/
theorem C5_context_shape_amended_witness :
    contextSent (handleText reliableStoreCollab 1 none none "hello" emptyStore) =
      { role := "system", content := systemInstruction } ::
        ((((emptyStore.messages.filter (fun m => m.user_id == 1)).reverse.take 4).reverse.map
          Msg.toRC) ++ [⟨"user", "hello"⟩]) ++ [⟨"user", "hello"⟩] ∧
    (contextSent (handleText reliableStoreCollab 1 none none "hello" emptyStore)).length =
      min ((emptyStore.messages.filter (fun m => m.user_id == 1)).length) 4 + 3 :=
  C5_context_shape_amended reliableStoreCollab 1 none none "hello" emptyStore
    (by decide) (by decide) rfl rfl (by decide)

end Plutox
